import Mathlib

/-!
# Verification of the CroweLM molecule viewer and offline cache

Shallow embedding of the MoleculeViewer component (atom/bond data model,
distance-based bond inference, fixed-column structure-file parsing, scene
construction) and of the offline cache hook (`useOfflineCache`,
`queueOfflineOperation`, `syncPendingOperations`), together with theorems
settling the specification claims.

Coordinates are modelled as exact rationals (`ℚ`): every numeric literal in
the source and in the claims is an exact decimal, so `ℚ` represents them
without rounding.  The source compares `Math.sqrt(dx²+dy²+dz²) < 1.9`; since
both sides are nonnegative this is equivalent to comparing squares, and the
embedding uses the squared comparison so that it stays executable.
-/

namespace CroweLM

/-- An atom as in the `Atom` interface of the viewer: element symbol and
3-D coordinates. -/
structure Atom where
  element : String
  x : ℚ
  y : ℚ
  z : ℚ
  deriving Repr, DecidableEq, Inhabited

/-- A bond as in the `Bond` interface: indices of the two endpoint atoms
and the bond order. -/
structure Bond where
  atom1 : ℕ
  atom2 : ℕ
  order : ℕ
  deriving Repr, DecidableEq, Inhabited

/-- Squared Euclidean distance between two atoms, `dx*dx + dy*dy + dz*dz`
in the source. -/
def distSq (a b : Atom) : ℚ :=
  (a.x - b.x) * (a.x - b.x) + (a.y - b.y) * (a.y - b.y) + (a.z - b.z) * (a.z - b.z)

/-- The source emits a bond when `Math.sqrt(distSq) < 1.9`; as both sides are
nonnegative this holds iff `distSq < 1.9²  = 3.61`. -/
def closeEnough (a b : Atom) : Bool :=
  distSq a b < (19 / 10 : ℚ) * (19 / 10)

/-- The bond-generation double loop of `parseMoleculeData`: for `i` from `0`
and `j` from `i+1` (here: all `j` with `i < j`, enumerated in the same
increasing order), push `{atom1 := i, atom2 := j, order := 1}` whenever the
distance test passes. -/
def inferBonds (atoms : List Atom) : List Bond :=
  (List.range atoms.length).flatMap fun i =>
    (List.range atoms.length).filterMap fun j =>
      if i < j ∧ closeEnough (atoms.getD i default) (atoms.getD j default) = true then
        some { atom1 := i, atom2 := j, order := 1 }
      else none

/-- The hard-coded demo molecule atoms (caffeine-like structure) returned by
`parseMoleculeData` when neither `atoms` nor `pdbData` is supplied. -/
def demoAtoms : List Atom :=
  [ { element := "C", x := 0, y := 0, z := 0 },
    { element := "C", x := 14/10, y := 0, z := 0 },
    { element := "N", x := 21/10, y := 12/10, z := 0 },
    { element := "C", x := 14/10, y := 24/10, z := 0 },
    { element := "C", x := 0, y := 24/10, z := 0 },
    { element := "N", x := -7/10, y := 12/10, z := 0 },
    { element := "O", x := 21/10, y := -12/10, z := 0 },
    { element := "N", x := -7/10, y := 36/10, z := 0 },
    { element := "C", x := 0, y := 48/10, z := 0 },
    { element := "N", x := 14/10, y := 48/10, z := 0 },
    { element := "C", x := 21/10, y := 36/10, z := 0 },
    { element := "O", x := 33/10, y := 36/10, z := 0 } ]

/-- The hard-coded demo molecule bonds. -/
def demoBonds : List Bond :=
  [ { atom1 := 0, atom2 := 1, order := 1 },
    { atom1 := 1, atom2 := 2, order := 1 },
    { atom1 := 2, atom2 := 3, order := 1 },
    { atom1 := 3, atom2 := 4, order := 2 },
    { atom1 := 4, atom2 := 5, order := 1 },
    { atom1 := 5, atom2 := 0, order := 2 },
    { atom1 := 1, atom2 := 6, order := 2 },
    { atom1 := 4, atom2 := 7, order := 1 },
    { atom1 := 7, atom2 := 8, order := 1 },
    { atom1 := 8, atom2 := 9, order := 2 },
    { atom1 := 9, atom2 := 10, order := 1 },
    { atom1 := 10, atom2 := 3, order := 1 },
    { atom1 := 10, atom2 := 11, order := 2 } ]

/-! ## Fixed-column structure-file parsing

The `pdbData` branch of `parseMoleculeData` splits the text on newlines,
keeps the lines starting with `ATOM` or `HETATM`, and reads the element
symbol and the coordinates from fixed column ranges with JavaScript's
`substring`, `trim` and `parseFloat`.  JavaScript strings are modelled as
`List Char`. -/

/-- Whitespace for JavaScript's `trim` and `parseFloat` (space, tab, LF, CR,
vertical tab, form feed). -/
def chWS (c : Char) : Bool :=
  c = ' ' || c = '\t' || c = '\n' || c = '\r' || c = '\x0b' || c = '\x0c'

/-- JavaScript `String.prototype.split('\n')`: the list of chunks between
newline characters (an empty string yields one empty chunk, a trailing
newline yields a trailing empty chunk). -/
def splitLines : List Char → List (List Char)
  | [] => [[]]
  | c :: rest =>
    if c = '\n' then [] :: splitLines rest
    else
      match splitLines rest with
      | l :: ls => (c :: l) :: ls
      | [] => [[c]]

/-- JavaScript `s.substring(a, b)`: indices are clamped to the string length
and swapped when `a > b`. -/
def jsSubstring (cs : List Char) (a b : ℕ) : List Char :=
  ((cs.take (max a b)).drop (min a b))

/-- JavaScript `s.trim()`: strip leading and trailing whitespace. -/
def jsTrim (cs : List Char) : List Char :=
  ((cs.dropWhile chWS).reverse.dropWhile chWS).reverse

/-- Numeric value of a digit string, most significant digit first. -/
def digitsVal (cs : List Char) : ℕ :=
  cs.foldl (fun a c => 10 * a + (c.toNat - 48)) 0

/-- The scanning phase of JavaScript `parseFloat`: skip leading whitespace,
read an optional sign, integer digits, an optional `.` with fraction digits,
and an optional exponent; trailing garbage is ignored.  Returns
`(negative, integer digits, fraction digits, exponent negative, exponent
digits)`, or `none` when no digits are found (`parseFloat` yields `NaN`).
(The special input `Infinity` is not modelled; no structure file contains
it.) -/
def scanFloat (s : List Char) : Option (Bool × List Char × List Char × Bool × List Char) :=
  let cs := s.dropWhile chWS
  let (neg, cs) :=
    match cs with
    | '-' :: t => (true, t)
    | '+' :: t => (false, t)
    | _ => (false, cs)
  let intDs := cs.takeWhile Char.isDigit
  let cs1 := cs.dropWhile Char.isDigit
  let (fracDs, cs2) :=
    match cs1 with
    | '.' :: t => (t.takeWhile Char.isDigit, t.dropWhile Char.isDigit)
    | _ => ([], cs1)
  if intDs = [] ∧ fracDs = [] then none
  else
    let (expNeg, expDs) :=
      match cs2 with
      | 'e' :: t | 'E' :: t =>
        match t with
        | '-' :: u => (true, u.takeWhile Char.isDigit)
        | '+' :: u => (false, u.takeWhile Char.isDigit)
        | u => (false, u.takeWhile Char.isDigit)
      | _ => (false, [])
    some (neg, intDs, fracDs, expNeg, expDs)

/-- Value denoted by a scanned float, as an exact rational: the digits of the
integer and fraction parts divided by `10^(number of fraction digits)`, scaled
by the exponent, negated by the sign. -/
def floatVal : Bool × List Char × List Char × Bool × List Char → ℚ
  | (neg, intDs, fracDs, expNeg, expDs) =>
    let mant : ℚ := (digitsVal (intDs ++ fracDs) : ℚ) / 10 ^ fracDs.length
    let scaled : ℚ := if expNeg then mant / 10 ^ digitsVal expDs else mant * 10 ^ digitsVal expDs
    if neg then -scaled else scaled

/-- JavaScript `parseFloat`, as an exact rational; `none` models `NaN`. -/
def jsParseFloat (cs : List Char) : Option ℚ :=
  (scanFloat cs).map floatVal

/-- Coordinate of a parsed record line.  `parseFloat` yields `NaN` when the
column holds no number; `ℚ` has no `NaN`, so that case is mapped to `0` here
(no claim evaluates an unparseable coordinate column). -/
def parseCoordD (cs : List Char) : ℚ :=
  (jsParseFloat cs).getD 0

/-- `line.startsWith('ATOM') || line.startsWith('HETATM')`. -/
def isRecordLine (cs : List Char) : Bool :=
  "ATOM".data.isPrefixOf cs || "HETATM".data.isPrefixOf cs

/-- Field extraction of one record line: element from columns `[76,78)`,
falling back to columns `[12,14)` when the former trims to the empty string
(JavaScript `||` on strings), coordinates from columns `[30,38)`, `[38,46)`,
`[46,54)`. -/
def atomOfLine (cs : List Char) : Atom :=
  let e76 := jsTrim (jsSubstring cs 76 78)
  { element := String.mk (if e76 = [] then jsTrim (jsSubstring cs 12 14) else e76)
    x := parseCoordD (jsSubstring cs 30 38)
    y := parseCoordD (jsSubstring cs 38 46)
    z := parseCoordD (jsSubstring cs 46 54) }

/-- The `pdbData` parsing loop of `parseMoleculeData`: one `Atom` per line
starting with `ATOM` or `HETATM`, all other lines ignored. -/
def parsePDBAtoms (pdbData : String) : List Atom :=
  (splitLines pdbData.data).filterMap fun line =>
    if isRecordLine line then some (atomOfLine line) else none

/-- `parseMoleculeData(atoms?, pdbData?)`: a supplied atom list (any array is
truthy in JavaScript, the empty one included) gets bonds inferred by
distance; otherwise a non-empty `pdbData` string is parsed and gets bonds
inferred; otherwise the hard-coded demo molecule is returned. -/
def parseMoleculeData (atoms? : Option (List Atom)) (pdbData? : Option String) :
    List Atom × List Bond :=
  match atoms? with
  | some atoms => (atoms, inferBonds atoms)
  | none =>
    match pdbData? with
    | some pdbData =>
      if pdbData = "" then (demoAtoms, demoBonds)
      else (parsePDBAtoms pdbData, inferBonds (parsePDBAtoms pdbData))
    | none => (demoAtoms, demoBonds)

/-! ## Scene construction (`onContextCreate`)

The geometric content of the render pass: the centroid of all atom
positions is subtracted from every position; one sphere is created per atom
with a radius looked up in `ATOM_RADII` and scaled by the presentation-mode
multiplier; one cylinder is created per bond unless the style is
`space-fill`. -/

/-- The three presentation modes of the `style` prop. -/
inductive RenderStyle where
  | ballStick
  | spaceFill
  | wireframe
  deriving DecidableEq, Repr

/-- `ATOM_RADII[element] || ATOM_RADII.default`: the radius table with
fallback `0.8` (no listed radius is `0`, so JavaScript truthiness coincides
with presence in the table). -/
def ATOM_RADII (element : String) : ℚ :=
  if element = "C" then 77/100
  else if element = "N" then 75/100
  else if element = "O" then 73/100
  else if element = "H" then 37/100
  else if element = "S" then 102/100
  else if element = "P" then 106/100
  else 8/10

/-- `(ATOM_RADII[atom.element] || ATOM_RADII.default) * (style === 'space-fill' ? 1.5 : 0.4)`. -/
def atomRenderRadius (style : RenderStyle) (element : String) : ℚ :=
  ATOM_RADII element * (if style = RenderStyle.spaceFill then 15/10 else 4/10)

/-- A mesh added to the molecule group: an atom sphere (radius and centered
position) or a bond cylinder (its two centered endpoints). -/
inductive SceneObject where
  | sphere (radius : ℚ) (center : ℚ × ℚ × ℚ)
  | cylinder (startPos endPos : ℚ × ℚ × ℚ)
  deriving DecidableEq, Repr

/-- The center of mass (`centerX`, `centerY`, `centerZ`): each coordinate sum
divided by the number of atoms. -/
def centroid (atoms : List Atom) : ℚ × ℚ × ℚ :=
  ((atoms.map Atom.x).sum / atoms.length,
   (atoms.map Atom.y).sum / atoms.length,
   (atoms.map Atom.z).sum / atoms.length)

/-- The centered positions `(atom.x - centerX, atom.y - centerY, atom.z - centerZ)`
passed to `mesh.position.set`. -/
def centeredPositions (atoms : List Atom) : List (ℚ × ℚ × ℚ) :=
  atoms.map fun a =>
    (a.x - (centroid atoms).1, a.y - (centroid atoms).2.1, a.z - (centroid atoms).2.2)

/-- The `// Create atoms` loop: one sphere per atom, in every style. -/
def buildAtomMeshes (style : RenderStyle) (atoms : List Atom) : List SceneObject :=
  atoms.map fun a =>
    SceneObject.sphere (atomRenderRadius style a.element)
      (a.x - (centroid atoms).1, a.y - (centroid atoms).2.1, a.z - (centroid atoms).2.2)

/-- The `// Create bonds` loop, guarded by `style !== 'space-fill'`: one
cylinder per bond between the centered endpoint positions. -/
def buildBondMeshes (style : RenderStyle) (atoms : List Atom) (bonds : List Bond) :
    List SceneObject :=
  if style ≠ RenderStyle.spaceFill then
    bonds.map fun b =>
      let a1 := atoms.getD b.atom1 default
      let a2 := atoms.getD b.atom2 default
      SceneObject.cylinder
        (a1.x - (centroid atoms).1, a1.y - (centroid atoms).2.1, a1.z - (centroid atoms).2.2)
        (a2.x - (centroid atoms).1, a2.y - (centroid atoms).2.1, a2.z - (centroid atoms).2.2)
  else []

/-- The molecule group built by `onContextCreate` from already-parsed data. -/
def buildMoleculeGroup (style : RenderStyle) (atoms : List Atom) (bonds : List Bond) :
    List SceneObject :=
  buildAtomMeshes style atoms ++ buildBondMeshes style atoms bonds

/-- The bond list used by the render pass of `MoleculeViewer`.
`onContextCreate` calls `parseMoleculeData(inputAtoms, pdbData)`; the
`bonds` prop is destructured as `inputBonds` but never read afterwards, so
it does not influence the result. -/
def viewerBonds (inputAtoms : Option (List Atom)) (inputBonds : Option (List Bond))
    (pdbData : Option String) : List Bond :=
  (parseMoleculeData inputAtoms pdbData).2

/-- The full scene content of `MoleculeViewer` for given props.  As in
`viewerBonds`, the `inputBonds` prop is accepted but ignored by the code. -/
def moleculeViewerScene (inputAtoms : Option (List Atom)) (inputBonds : Option (List Bond))
    (pdbData : Option String) (style : RenderStyle) : List SceneObject :=
  buildMoleculeGroup style (parseMoleculeData inputAtoms pdbData).1
    (parseMoleculeData inputAtoms pdbData).2

/-! ## Offline cache hook (`useOfflineCache`)

The hook's four result fields that the claims mention (`data`, `isLoading`,
`isStale`, `error`) are modelled as a state record; `AsyncStorage` under the
hook's cache key is an `Option CachedEntry`; a fetcher call is an
`Except String T` supplied as a parameter (`.ok` = resolved promise,
`.error` = rejected promise).  Timestamps are natural numbers (milliseconds);
`now - timestamp > ttl` agrees with the JavaScript comparison because a
negative difference is never greater than a nonnegative `ttl`, matching
truncated subtraction. -/

/-- `CachedData<T>`: the JSON value persisted under the cache key. -/
structure CachedEntry (T : Type) where
  data : T
  timestamp : ℕ
  ttl : ℕ
  deriving DecidableEq, Repr

/-- The hook's state fields relevant to the claims. -/
structure HookState (T : Type) where
  data : Option T
  isLoading : Bool
  isStale : Bool
  error : Option String
  deriving DecidableEq, Repr

/-- The `useState` initial values: `data=null`, `isLoading=true`,
`isStale=false`, `error=null`. -/
def initialHookState (T : Type) : HookState T :=
  { data := none, isLoading := true, isStale := false, error := none }

/-- `fetchAndCache`: set loading, clear the error, run the fetcher; on
success store the fresh data with `timestamp = Date.now()` and clear
staleness and error; on failure keep stale data when offline
(`if (isOffline && data)`), otherwise record the error; finally clear
loading.  Returns the new state and the new storage content. -/
def fetchAndCache {T : Type} (isOffline : Bool) (ttl now : ℕ)
    (fetchResult : Except String T) (st : HookState T)
    (storage : Option (CachedEntry T)) : HookState T × Option (CachedEntry T) :=
  let st1 : HookState T := { st with isLoading := true, error := none }
  match fetchResult with
  | Except.ok freshData =>
    ({ st1 with data := some freshData, isStale := false, error := none, isLoading := false },
     some { data := freshData, timestamp := now, ttl := ttl })
  | Except.error err =>
    if isOffline && st1.data.isSome then
      ({ st1 with isStale := true, isLoading := false }, storage)
    else
      ({ st1 with error := some err, isLoading := false }, storage)

/-- `loadCachedData` (the hook's read path): a non-expired cached entry is
returned straight away (`isStale=false`, fetcher not invoked); an expired
entry is first surfaced as stale data when `staleWhileRevalidate` is set and
then `fetchAndCache` runs; with no cached entry `fetchAndCache` runs
directly.  The final `Bool` records whether the fetcher was invoked. -/
def loadCachedData {T : Type} (isOffline staleWhileRevalidate : Bool) (ttl now : ℕ)
    (fetchResult : Except String T) (st : HookState T)
    (storage : Option (CachedEntry T)) :
    HookState T × Option (CachedEntry T) × Bool :=
  match storage with
  | some entry =>
    if now - entry.timestamp > entry.ttl then
      let st1 :=
        if staleWhileRevalidate then { st with data := some entry.data, isStale := true }
        else st
      let r := fetchAndCache isOffline ttl now fetchResult st1 storage
      (r.1, r.2, true)
    else
      ({ st with data := some entry.data, isStale := false, isLoading := false },
       storage, false)
  | none =>
    let r := fetchAndCache isOffline ttl now fetchResult st storage
    (r.1, r.2, true)

/-! ## Pending-operation queue -/

/-- The HTTP methods of `PendingSyncOperation.type`. -/
inductive HttpMethod where
  | post
  | put
  | delete
  deriving DecidableEq, Repr

/-- A queued offline operation. -/
structure PendingSyncOperation where
  id : String
  type : HttpMethod
  endpoint : String
  data : String
  timestamp : ℕ
  deriving DecidableEq, Repr

/-- `queueOfflineOperation`: append the new operation to the persisted list
(an absent or empty persisted value starts a fresh list).  The generated
`id`/`timestamp` fields are part of the supplied operation here. -/
def queueOfflineOperation (op : PendingSyncOperation)
    (storage : Option (List PendingSyncOperation)) : Option (List PendingSyncOperation) :=
  match storage with
  | none => some [op]
  | some pending => some (pending ++ [op])

/-- The `for (const operation of pending)` loop of `syncPendingOperations`:
every operation is attempted in list order (`attempt op = true` models a
2xx response, `false` models `!response.ok` or a thrown network error);
failed operations are pushed onto `remaining` in encounter order.  Returns
`(operations attempted in order, remaining)`. -/
def syncAttempts (attempt : PendingSyncOperation → Bool) :
    List PendingSyncOperation → List PendingSyncOperation × List PendingSyncOperation
  | [] => ([], [])
  | op :: rest =>
    let r := syncAttempts attempt rest
    (op :: r.1, if attempt op then r.2 else op :: r.2)

/-- `syncPendingOperations`: nothing to do when no list is persisted;
otherwise run the attempt loop, then persist the remaining operations, or
remove the key when none remain. -/
def syncPendingOperations (attempt : PendingSyncOperation → Bool)
    (storage : Option (List PendingSyncOperation)) : Option (List PendingSyncOperation) :=
  match storage with
  | none => none
  | some pending =>
    let remaining := (syncAttempts attempt pending).2
    if remaining.length > 0 then some remaining else none

/-! ## Sample inputs used by the concrete parts of the claims -/

/-- A carbon atom at the origin. -/
def atomOrigin : Atom := { element := "C", x := 0, y := 0, z := 0 }

/-- A carbon atom at `(1.0, 0, 0)` (distance `1.0` from the origin). -/
def atomUnitX : Atom := { element := "C", x := 1, y := 0, z := 0 }

/-- A carbon atom at `(5, 0, 0)` (distance `5.0` from the origin). -/
def atomFiveX : Atom := { element := "C", x := 5, y := 0, z := 0 }

/-- First line of the sample structure-file snippet: an `ATOM` record with
coordinates `(0.000, 0.000, 0.000)` and element `C` in columns `[76,78)`. -/
def pdbLine1 : String :=
  "ATOM      1  C                   0.000   0.000   0.000                       C"

/-- Second record line of the snippet: a `HETATM` record with coordinates
`(1.000, 0.000, 0.000)` and element `O`. -/
def pdbLine2 : String :=
  "HETATM    1  O                   1.000   0.000   0.000                       O"

/-- The two-atom snippet, with a non-record line between the two records. -/
def samplePDB : String := pdbLine1 ++ "\n" ++ "REMARK generated sample" ++ "\n" ++ pdbLine2

/-- Translation of every atom position by a constant vector `v`. -/
def translateAtoms (v : ℚ × ℚ × ℚ) (atoms : List Atom) : List Atom :=
  atoms.map fun a => { a with x := a.x + v.1, y := a.y + v.2.1, z := a.z + v.2.2 }

/-! ## Bond inference -/

/-- Membership characterisation of the bond-generation loop: a bond is
emitted exactly for the index pairs `i < j < length` passing the distance
test, and every emitted bond is `{atom1 := i, atom2 := j, order := 1}`. -/
theorem mem_inferBonds_iff (atoms : List Atom) (b : Bond) :
    b ∈ inferBonds atoms ↔
      ∃ i j, i < j ∧ j < atoms.length ∧
        closeEnough (atoms.getD i default) (atoms.getD j default) = true ∧
        b = { atom1 := i, atom2 := j, order := 1 } := by
  simp only [inferBonds, List.mem_flatMap, List.mem_filterMap, List.mem_range]
  constructor
  · rintro ⟨i, hi, j, hj, hb⟩
    by_cases hc : i < j ∧ closeEnough (atoms.getD i default) (atoms.getD j default) = true
    · rw [if_pos hc] at hb
      exact ⟨i, j, hc.1, hj, hc.2, (Option.some.injEq _ _ ▸ hb).symm⟩
    · rw [if_neg hc] at hb
      exact absurd hb (Option.noConfusion)
  · rintro ⟨i, j, hij, hj, hc, rfl⟩
    exact ⟨i, lt_trans hij hj, j, hj, by rw [if_pos ⟨hij, hc⟩]⟩

/-- C1: bond inference emits a bond with `order = 1` for exactly the
unordered pairs `(i, j)` with `i < j` whose distance is strictly below the
`1.9` threshold (stated on squared distances, as `√d < 1.9 ↔ d < 3.61` for
`d ≥ 0`); atoms at `(0,0,0)` and `(1.0,0,0)` yield exactly one bond, atoms
at `(0,0,0)` and `(5,0,0)` yield none. -/
theorem inferBonds_exactly_close_pairs (atoms : List Atom) (i j : ℕ) :
    ({ atom1 := i, atom2 := j, order := 1 } ∈ inferBonds atoms ↔
        i < j ∧ j < atoms.length ∧
          closeEnough (atoms.getD i default) (atoms.getD j default) = true)
      ∧ ((inferBonds atoms).all fun b => b.order == 1) = true
      ∧ inferBonds [atomOrigin, atomUnitX] = [{ atom1 := 0, atom2 := 1, order := 1 }]
      ∧ inferBonds [atomOrigin, atomFiveX] = [] := by
  refine ⟨?_, ?_, ?_, ?_⟩
  · rw [mem_inferBonds_iff]
    constructor
    · rintro ⟨i', j', h1, h2, h3, heq⟩
      obtain ⟨h4, h5, -⟩ := Bond.mk.inj heq
      subst h4
      subst h5
      exact ⟨h1, h2, h3⟩
    · rintro ⟨hij, hj, hc⟩
      exact ⟨i, j, hij, hj, hc, rfl⟩
  · rw [List.all_eq_true]
    intro b hb
    obtain ⟨i', j', -, -, -, rfl⟩ := (mem_inferBonds_iff atoms b).mp hb
    rfl
  · norm_num [inferBonds, closeEnough, distSq, List.range_succ, atomOrigin, atomUnitX,
      List.filterMap_cons, List.getD, List.getElem?_cons_zero, List.getElem?_cons_succ,
      Option.getD_some]
  · norm_num [inferBonds, closeEnough, distSq, List.range_succ, atomOrigin, atomFiveX,
      List.filterMap_cons, List.getD, List.getElem?_cons_zero, List.getElem?_cons_succ,
      Option.getD_some]

/-- C2: every inferred bond has distinct endpoint indices, both indices valid
for the atom list, and the reversed pair of an inferred bond is never itself
in the list (in particular bonds are not duplicated in both orders). -/
theorem inferBonds_wellformed (atoms : List Atom) (b b' : Bond)
    (hb : b ∈ inferBonds atoms) (hb' : b' ∈ inferBonds atoms) :
    b.atom1 ≠ b.atom2 ∧ b.atom1 < atoms.length ∧ b.atom2 < atoms.length ∧
      ¬(b'.atom1 = b.atom2 ∧ b'.atom2 = b.atom1) := by
  obtain ⟨i, j, hij, hj, -, rfl⟩ := (mem_inferBonds_iff atoms b).mp hb
  obtain ⟨i', j', hij', hj', -, rfl⟩ := (mem_inferBonds_iff atoms b').mp hb'
  refine ⟨Nat.ne_of_lt hij, lt_trans hij hj, hj, ?_⟩
  rintro ⟨h1, h2⟩
  simp only at h1 h2
  omega

/-- Witness for C2 at the two-atom input `[(0,0,0), (1.0,0,0)]` and its
single inferred bond. -/
theorem inferBonds_wellformed_witness :
    ({ atom1 := 0, atom2 := 1, order := 1 } : Bond).atom1 ≠
        ({ atom1 := 0, atom2 := 1, order := 1 } : Bond).atom2 ∧
      ({ atom1 := 0, atom2 := 1, order := 1 } : Bond).atom1 <
        [atomOrigin, atomUnitX].length ∧
      ({ atom1 := 0, atom2 := 1, order := 1 } : Bond).atom2 <
        [atomOrigin, atomUnitX].length ∧
      ¬(({ atom1 := 0, atom2 := 1, order := 1 } : Bond).atom1 =
            ({ atom1 := 0, atom2 := 1, order := 1 } : Bond).atom2 ∧
          ({ atom1 := 0, atom2 := 1, order := 1 } : Bond).atom2 =
            ({ atom1 := 0, atom2 := 1, order := 1 } : Bond).atom1) := by
  have he : inferBonds [atomOrigin, atomUnitX] = [{ atom1 := 0, atom2 := 1, order := 1 }] := by
    norm_num [inferBonds, closeEnough, distSq, List.range_succ, atomOrigin, atomUnitX,
      List.filterMap_cons, List.getD, List.getElem?_cons_zero, List.getElem?_cons_succ,
      Option.getD_some]
  have hmem : ({ atom1 := 0, atom2 := 1, order := 1 } : Bond) ∈
      inferBonds [atomOrigin, atomUnitX] := by
    rw [he]; exact List.mem_singleton.mpr rfl
  exact inferBonds_wellformed [atomOrigin, atomUnitX] _ _ hmem hmem

/-- C10: with neither an atom list nor structure-file text,
`parseMoleculeData` returns the built-in demo molecule: 12 atoms and 13
hard-coded bonds whose orders are all 1 or 2, not an empty graph. -/
theorem parseMoleculeData_default_demo :
    parseMoleculeData none none = (demoAtoms, demoBonds) ∧
      demoAtoms.length = 12 ∧ demoBonds.length = 13 ∧
      (demoBonds.all fun b => b.order == 1 || b.order == 2) = true ∧
      demoAtoms ≠ [] ∧ demoBonds ≠ [] := by
  refine ⟨rfl, rfl, rfl, rfl, ?_, ?_⟩
  · simp [demoAtoms]
  · simp [demoBonds]

/-! ## Structure-file parsing -/

/-- A `filterMap` that guards a total extraction with a predicate is the
`map` of the extraction over the `filter` of the predicate. -/
theorem filterMap_guard_eq_map_filter {α β : Type} (p : α → Bool) (f : α → β)
    (l : List α) :
    (l.filterMap fun a => if p a then some (f a) else none) = (l.filter p).map f := by
  induction l with
  | nil => rfl
  | cons a t ih =>
    by_cases h : p a <;> simp [List.filterMap_cons, List.filter_cons, h, ih]

/-- C5: parsing produces one atom per line starting with `ATOM` or `HETATM`
(every other line is ignored), fields taken from the fixed columns by
`atomOfLine`; a non-empty structure-file text gets bond inference applied to
the parsed atoms; the two-atom sample snippet parses to the literal
coordinates `(0,0,0)` and `(1,0,0)` and yields the single inferred bond. -/
theorem parsePDB_structure (pdb : String) :
    parsePDBAtoms pdb = ((splitLines pdb.data).filter isRecordLine).map atomOfLine
      ∧ (pdb ≠ "" → parseMoleculeData none (some pdb) =
          (parsePDBAtoms pdb, inferBonds (parsePDBAtoms pdb)))
      ∧ parsePDBAtoms samplePDB =
          [{ element := "C", x := 0, y := 0, z := 0 },
           { element := "O", x := 1, y := 0, z := 0 }]
      ∧ parseMoleculeData none (some samplePDB) =
          ([{ element := "C", x := 0, y := 0, z := 0 },
            { element := "O", x := 1, y := 0, z := 0 }],
           [{ atom1 := 0, atom2 := 1, order := 1 }]) := by
  have hsample : parsePDBAtoms samplePDB =
      [{ element := "C", x := 0, y := 0, z := 0 },
       { element := "O", x := 1, y := 0, z := 0 }] := by
    have hstep : parsePDBAtoms samplePDB = [atomOfLine pdbLine1.data, atomOfLine pdbLine2.data] :=
      rfl
    have h1 : atomOfLine pdbLine1.data = { element := "C", x := 0, y := 0, z := 0 } := by
      have hx : scanFloat (jsSubstring pdbLine1.data 30 38) =
          some (false, ['0'], ['0', '0', '0'], false, []) := rfl
      have hy : scanFloat (jsSubstring pdbLine1.data 38 46) =
          some (false, ['0'], ['0', '0', '0'], false, []) := rfl
      have hz : scanFloat (jsSubstring pdbLine1.data 46 54) =
          some (false, ['0'], ['0', '0', '0'], false, []) := rfl
      have he : jsTrim (jsSubstring pdbLine1.data 76 78) = ['C'] := rfl
      simp [atomOfLine, parseCoordD, jsParseFloat, hx, hy, hz, he, floatVal, digitsVal]
    have h2 : atomOfLine pdbLine2.data = { element := "O", x := 1, y := 0, z := 0 } := by
      have hx : scanFloat (jsSubstring pdbLine2.data 30 38) =
          some (false, ['1'], ['0', '0', '0'], false, []) := rfl
      have hy : scanFloat (jsSubstring pdbLine2.data 38 46) =
          some (false, ['0'], ['0', '0', '0'], false, []) := rfl
      have hz : scanFloat (jsSubstring pdbLine2.data 46 54) =
          some (false, ['0'], ['0', '0', '0'], false, []) := rfl
      have he : jsTrim (jsSubstring pdbLine2.data 76 78) = ['O'] := rfl
      simp [atomOfLine, parseCoordD, jsParseFloat, hx, hy, hz, he, floatVal, digitsVal]
      norm_num
    rw [hstep, h1, h2]
  refine ⟨filterMap_guard_eq_map_filter isRecordLine atomOfLine _, ?_, hsample, ?_⟩
  · intro h
    simp only [parseMoleculeData, if_neg h]
  · have hne : samplePDB ≠ "" := by decide
    simp only [parseMoleculeData, if_neg hne, hsample]
    norm_num [inferBonds, closeEnough, distSq, List.range_succ,
      List.filterMap_cons, List.getD, List.getElem?_cons_zero, List.getElem?_cons_succ,
      Option.getD_some]

/-- Witness for C5: the sample snippet is non-empty, and `parseMoleculeData`
on it returns the parsed atoms with the inferred bonds. -/
theorem parsePDB_structure_witness :
    samplePDB ≠ "" ∧
      parseMoleculeData none (some samplePDB) =
        (parsePDBAtoms samplePDB, inferBonds (parsePDBAtoms samplePDB)) :=
  ⟨by decide, (parsePDB_structure samplePDB).2.1 (by decide)⟩

/-! ## Centering -/

/-- Sum of a mapped coordinate after adding a constant to every atom. -/
theorem sum_map_add_const (l : List Atom) (f : Atom → ℚ) (c : ℚ) :
    (l.map fun a => f a + c).sum = (l.map f).sum + l.length * c := by
  induction l with
  | nil => simp
  | cons a t ih => simp [ih]; ring

/-- Translating every atom by `v` moves the centroid by `v` (the atom list
must be non-empty, as the code divides by the atom count). -/
theorem centroid_translate (v : ℚ × ℚ × ℚ) (atoms : List Atom) (h : atoms ≠ []) :
    centroid (translateAtoms v atoms) =
      ((centroid atoms).1 + v.1, (centroid atoms).2.1 + v.2.1, (centroid atoms).2.2 + v.2.2) := by
  have hn : (atoms.length : ℚ) ≠ 0 :=
    Nat.cast_ne_zero.mpr fun hl => h (List.length_eq_zero.mp hl)
  have hx : (translateAtoms v atoms).map Atom.x = atoms.map fun a => a.x + v.1 := by
    unfold translateAtoms; rw [List.map_map]; rfl
  have hy : (translateAtoms v atoms).map Atom.y = atoms.map fun a => a.y + v.2.1 := by
    unfold translateAtoms; rw [List.map_map]; rfl
  have hz : (translateAtoms v atoms).map Atom.z = atoms.map fun a => a.z + v.2.2 := by
    unfold translateAtoms; rw [List.map_map]; rfl
  have hlen : (translateAtoms v atoms).length = atoms.length := by simp [translateAtoms]
  have hdiv : ∀ S c : ℚ, (S + atoms.length * c) / atoms.length = S / atoms.length + c := by
    intro S c; field_simp; ring
  unfold centroid
  rw [hx, hy, hz, hlen, sum_map_add_const, sum_map_add_const, sum_map_add_const,
    hdiv, hdiv, hdiv]

/-- C6: centering is translation-invariant — translating every atom by the
same vector before subtracting the centroid yields the same centered
positions (for a non-empty atom list, the only case where the centroid is
defined). -/
theorem centering_translation_invariant (v : ℚ × ℚ × ℚ) (atoms : List Atom)
    (h : atoms ≠ []) :
    centeredPositions (translateAtoms v atoms) = centeredPositions atoms := by
  unfold centeredPositions
  rw [centroid_translate v atoms h]
  unfold translateAtoms
  rw [List.map_map]
  refine List.map_congr_left fun a ha => ?_
  simp only [Function.comp_apply, Prod.mk.injEq]
  refine ⟨by ring, by ring, by ring⟩

/-- Witness for C6 at a two-atom list translated by `(1, 2, 3)`. -/
theorem centering_translation_invariant_witness :
    [atomOrigin, atomUnitX] ≠ [] ∧
      centeredPositions (translateAtoms (1, 2, 3) [atomOrigin, atomUnitX]) =
        centeredPositions [atomOrigin, atomUnitX] :=
  ⟨by simp, centering_translation_invariant (1, 2, 3) [atomOrigin, atomUnitX] (by simp)⟩

/-! ## Scene construction -/

/-- Counterexample to C7 as stated: in `wireframe` style the code still
creates one sphere per atom (the sphere-creation loop is not guarded by the
style), shown here on a single carbon atom. -/
theorem wireframe_spheres_counterexample :
    buildAtomMeshes RenderStyle.wireframe [atomOrigin] =
        [SceneObject.sphere (77/100 * (4/10)) (0, 0, 0)] ∧
      buildAtomMeshes RenderStyle.wireframe [atomOrigin] ≠ [] := by
  constructor
  · simp [buildAtomMeshes, atomRenderRadius, ATOM_RADII, centroid, atomOrigin]
  · simp [buildAtomMeshes]

/-- C7 (amended): the rendered atom radius is the element's tabulated base
radius — `0.8` for unmapped elements — times a mode multiplier, `1.5` for
space-fill and `0.4` for both ball-stick and wireframe (so space-fill's
multiplier is the larger); atom spheres are created in every mode, wireframe
included; bond cylinders are suppressed in space-fill mode and rendered
identically in ball-stick and wireframe. -/
theorem atom_radius_and_scene_meshes (atoms : List Atom) (bonds : List Bond)
    (e : String) (he : e ∉ (["C", "N", "O", "H", "S", "P"] : List String)) :
    ATOM_RADII e = 8/10
      ∧ atomRenderRadius RenderStyle.spaceFill e = ATOM_RADII e * (15/10)
      ∧ atomRenderRadius RenderStyle.ballStick e = ATOM_RADII e * (4/10)
      ∧ atomRenderRadius RenderStyle.wireframe e = ATOM_RADII e * (4/10)
      ∧ (4 : ℚ)/10 < 15/10
      ∧ (buildAtomMeshes RenderStyle.wireframe atoms).length = atoms.length
      ∧ (buildAtomMeshes RenderStyle.spaceFill atoms).length = atoms.length
      ∧ (buildAtomMeshes RenderStyle.ballStick atoms).length = atoms.length
      ∧ buildBondMeshes RenderStyle.spaceFill atoms bonds = []
      ∧ buildBondMeshes RenderStyle.wireframe atoms bonds =
          buildBondMeshes RenderStyle.ballStick atoms bonds
      ∧ (buildBondMeshes RenderStyle.wireframe atoms bonds).length = bonds.length := by
  simp only [List.mem_cons, List.not_mem_nil, or_false, not_or] at he
  obtain ⟨h1, h2, h3, h4, h5, h6⟩ := he
  refine ⟨?_, ?_, ?_, ?_, by norm_num, ?_, ?_, ?_, ?_, ?_, ?_⟩
  · simp [ATOM_RADII, h1, h2, h3, h4, h5, h6]
  · simp [atomRenderRadius]
  · simp [atomRenderRadius]
  · simp [atomRenderRadius]
  · simp [buildAtomMeshes]
  · simp [buildAtomMeshes]
  · simp [buildAtomMeshes]
  · simp [buildBondMeshes]
  · rfl
  · simp [buildBondMeshes]

/-- Witness for C7 (amended) at an unmapped element symbol. -/
theorem atom_radius_and_scene_meshes_witness :
    ("Xx" ∉ (["C", "N", "O", "H", "S", "P"] : List String)) ∧
      ATOM_RADII "Xx" = 8/10 :=
  ⟨by decide, (atom_radius_and_scene_meshes [] [] "Xx" (by decide)).1⟩

/-- C8 (failing input): `MoleculeViewer` given `atoms = [(0,0,0), (1,0,0)]`
together with an explicit empty `bonds` list still renders the recomputed
distance-based bond, because `onContextCreate` never reads the `bonds`
prop. -/
theorem viewerBonds_ignores_supplied_bonds :
    viewerBonds (some [atomOrigin, atomUnitX]) (some []) none =
        [{ atom1 := 0, atom2 := 1, order := 1 }]
      ∧ viewerBonds (some [atomOrigin, atomUnitX]) (some []) none ≠ ([] : List Bond) := by
  have hb : viewerBonds (some [atomOrigin, atomUnitX]) (some []) none =
      [{ atom1 := 0, atom2 := 1, order := 1 }] := by
    simp only [viewerBonds, parseMoleculeData]
    norm_num [inferBonds, closeEnough, distSq, List.range_succ, atomOrigin, atomUnitX,
      List.filterMap_cons, List.getD, List.getElem?_cons_zero, List.getElem?_cons_succ,
      Option.getD_some]
  exact ⟨hb, by rw [hb]; simp⟩

/-! ## Offline cache: read paths -/

/-- Counterexample to C3 as stated: with an expired cache entry and a failing
fetcher, the error field does NOT stay `null` when the device is online —
`fetchAndCache` keeps stale data silently only under `isOffline && data`.
Input: entry `{data: 42, timestamp: 0, ttl: 5}`, read at `now = 10` (TTL
elapsed), fetcher rejects with `"network"`, device online. -/
theorem stale_read_error_counterexample :
    (10 - (0 : ℕ) > 5) ∧
      (loadCachedData (T := ℕ) false true 5 10 (Except.error "network")
          (initialHookState ℕ) (some { data := 42, timestamp := 0, ttl := 5 })).1.error ≠ none ∧
      (loadCachedData (T := ℕ) false true 5 10 (Except.error "network")
          (initialHookState ℕ) (some { data := 42, timestamp := 0, ttl := 5 })).1.error =
        some "network" ∧
      (loadCachedData (T := ℕ) false true 5 10 (Except.error "network")
          (initialHookState ℕ) (some { data := 42, timestamp := 0, ttl := 5 })).1.data = some 42 := by
  refine ⟨by norm_num, ?_, ?_, ?_⟩ <;>
    simp [loadCachedData, fetchAndCache, initialHookState]

/-- C3 (amended): after the entry's TTL has elapsed and the fetcher fails
(with `staleWhileRevalidate` on, its default), the read always returns the
previously cached data with `isStale = true` and leaves the stored entry
untouched; the error field stays `null` exactly when the device is offline,
and otherwise carries the fetcher error alongside the preserved stale
data. -/
theorem stale_read_after_ttl {T : Type} (d : T) (ts ttl0 ttl now : ℕ) (e : String)
    (isOffline : Bool) (h : now - ts > ttl0) :
    (loadCachedData isOffline true ttl now (Except.error e) (initialHookState T)
        (some { data := d, timestamp := ts, ttl := ttl0 })).1.data = some d ∧
      (loadCachedData isOffline true ttl now (Except.error e) (initialHookState T)
          (some { data := d, timestamp := ts, ttl := ttl0 })).1.isStale = true ∧
      (loadCachedData isOffline true ttl now (Except.error e) (initialHookState T)
          (some { data := d, timestamp := ts, ttl := ttl0 })).1.error =
        (if isOffline then none else some e) ∧
      (loadCachedData isOffline true ttl now (Except.error e) (initialHookState T)
          (some { data := d, timestamp := ts, ttl := ttl0 })).2.1 =
        some { data := d, timestamp := ts, ttl := ttl0 } := by
  cases isOffline <;>
    simp [loadCachedData, fetchAndCache, initialHookState, h]

/-- Witness for C3 (amended): expired entry, offline device, failing
fetcher. -/
theorem stale_read_after_ttl_witness :
    (10 - (0 : ℕ) > 5) ∧
      ((loadCachedData (T := ℕ) true true 5 10 (Except.error "offline")
          (initialHookState ℕ) (some { data := 42, timestamp := 0, ttl := 5 })).1.data =
          some 42 ∧
        (loadCachedData (T := ℕ) true true 5 10 (Except.error "offline")
            (initialHookState ℕ) (some { data := 42, timestamp := 0, ttl := 5 })).1.isStale =
          true ∧
        (loadCachedData (T := ℕ) true true 5 10 (Except.error "offline")
            (initialHookState ℕ) (some { data := 42, timestamp := 0, ttl := 5 })).1.error =
          (if true then none else some "offline") ∧
        (loadCachedData (T := ℕ) true true 5 10 (Except.error "offline")
            (initialHookState ℕ) (some { data := 42, timestamp := 0, ttl := 5 })).2.1 =
          some { data := 42, timestamp := 0, ttl := 5 }) :=
  ⟨by norm_num, stale_read_after_ttl 42 0 5 5 10 "offline" true (by norm_num)⟩

/-- A non-expired cached entry short-circuits the read: the cached data is
returned with `isStale = false`, storage is untouched, and the fetcher is not
invoked. -/
theorem loadCachedData_fresh_entry {T : Type} (isOffline swr : Bool) (ttl now : ℕ)
    (fr : Except String T) (st : HookState T) (entry : CachedEntry T)
    (h : ¬ now - entry.timestamp > entry.ttl) :
    loadCachedData isOffline swr ttl now fr st (some entry) =
      ({ st with data := some entry.data, isStale := false, isLoading := false },
       some entry, false) := by
  simp [loadCachedData, h]

/-- C9: a read that invokes the fetcher and succeeds ends with
`isStale = false`, `error = null`, the fresh value as data, and persists the
entry `{data, timestamp := now, ttl}`; a subsequent read of the same key
within the TTL returns the persisted data without invoking the fetcher (its
fetch outcome `fr'` is irrelevant, the invoked flag is `false`, and storage is
unchanged). -/
theorem fresh_fetch_then_cached_read {T : Type} (v : T)
    (isOffline swr isOffline' swr' : Bool) (ttl ttl' now now' : ℕ)
    (st st' : HookState T) (storage : Option (CachedEntry T)) (fr' : Except String T)
    (h1 : (loadCachedData isOffline swr ttl now (Except.ok v) st storage).2.2 = true)
    (h2 : now' - now ≤ ttl) :
    (loadCachedData isOffline swr ttl now (Except.ok v) st storage).1.isStale = false ∧
      (loadCachedData isOffline swr ttl now (Except.ok v) st storage).1.error = none ∧
      (loadCachedData isOffline swr ttl now (Except.ok v) st storage).1.data = some v ∧
      (loadCachedData isOffline swr ttl now (Except.ok v) st storage).2.1 =
        some { data := v, timestamp := now, ttl := ttl } ∧
      loadCachedData isOffline' swr' ttl' now' fr' st'
          (loadCachedData isOffline swr ttl now (Except.ok v) st storage).2.1 =
        ({ st' with data := some v, isStale := false, isLoading := false },
         some { data := v, timestamp := now, ttl := ttl }, false) := by
  have hr1 : (loadCachedData isOffline swr ttl now (Except.ok v) st storage).1.isStale = false ∧
      (loadCachedData isOffline swr ttl now (Except.ok v) st storage).1.error = none ∧
      (loadCachedData isOffline swr ttl now (Except.ok v) st storage).1.data = some v ∧
      (loadCachedData isOffline swr ttl now (Except.ok v) st storage).2.1 =
        some { data := v, timestamp := now, ttl := ttl } := by
    rcases storage with _ | entry
    · simp [loadCachedData, fetchAndCache]
    · by_cases hexp : now - entry.timestamp > entry.ttl
      · simp [loadCachedData, fetchAndCache, hexp]
      · simp [loadCachedData, hexp] at h1
  refine ⟨hr1.1, hr1.2.1, hr1.2.2.1, hr1.2.2.2, ?_⟩
  rw [hr1.2.2.2]
  exact loadCachedData_fresh_entry isOffline' swr' ttl' now' fr' st' _ (by simp; omega)

/-- Witness for C9: first read at `now = 100` over empty storage with the
fetcher resolving to `7`, second read at `now' = 103` within `ttl = 5`. -/
theorem fresh_fetch_then_cached_read_witness :
    ((loadCachedData (T := ℕ) false true 5 100 (Except.ok 7)
        (initialHookState ℕ) none).2.2 = true) ∧
      (103 - 100 ≤ 5) ∧
      ((loadCachedData (T := ℕ) false true 5 100 (Except.ok 7)
            (initialHookState ℕ) none).1.isStale = false ∧
        (loadCachedData (T := ℕ) false true 5 100 (Except.ok 7)
            (initialHookState ℕ) none).1.error = none ∧
        (loadCachedData (T := ℕ) false true 5 100 (Except.ok 7)
            (initialHookState ℕ) none).1.data = some 7 ∧
        (loadCachedData (T := ℕ) false true 5 100 (Except.ok 7)
            (initialHookState ℕ) none).2.1 =
          some { data := 7, timestamp := 100, ttl := 5 } ∧
        loadCachedData (T := ℕ) false true 5 103 (Except.error "ignored")
            (initialHookState ℕ)
            (loadCachedData (T := ℕ) false true 5 100 (Except.ok 7)
              (initialHookState ℕ) none).2.1 =
          ({ initialHookState ℕ with data := some 7, isStale := false, isLoading := false },
           some { data := 7, timestamp := 100, ttl := 5 }, false)) :=
  ⟨rfl, by norm_num,
    fresh_fetch_then_cached_read 7 false true false true 5 5 100 103
      (initialHookState ℕ) (initialHookState ℕ) none (Except.error "ignored")
      rfl (by norm_num)⟩

/-! ## Pending-operation sync -/

/-- The attempt loop visits every operation in list order and keeps exactly
the failing ones, in encounter order. -/
theorem syncAttempts_eq (attempt : PendingSyncOperation → Bool)
    (pending : List PendingSyncOperation) :
    syncAttempts attempt pending = (pending, pending.filter fun o => !(attempt o)) := by
  induction pending with
  | nil => rfl
  | cons op rest ih =>
    by_cases h : attempt op <;>
      simp [syncAttempts, ih, List.filter_cons, h]

/-- A sample queued operation. -/
def sampleOp : PendingSyncOperation :=
  { id := "op-1", type := HttpMethod.post, endpoint := "/api/batches",
    data := "payload", timestamp := 0 }

/-- C4: `syncPendingOperations` attempts every pending operation in FIFO
order even when earlier ones fail; the retained list is exactly the failing
operations in their original relative order (a sublist of the original), a
succeeding operation never remains, and the persisted value becomes the
remaining list, or is removed when nothing remains; queueing an operation
and syncing against an always-failing endpoint leaves it in its original
position, while syncing against a succeeding endpoint removes it. -/
theorem sync_fifo_retention (attempt : PendingSyncOperation → Bool)
    (pending : List PendingSyncOperation) (op : PendingSyncOperation) :
    (syncAttempts attempt pending).1 = pending
      ∧ (syncAttempts attempt pending).2 = pending.filter (fun o => !(attempt o))
      ∧ ((syncAttempts attempt pending).2).Sublist pending
      ∧ (∀ o, attempt o = true → o ∉ (syncAttempts attempt pending).2)
      ∧ syncPendingOperations attempt (some pending) =
          (if pending.filter (fun o => !(attempt o)) = [] then none
           else some (pending.filter fun o => !(attempt o)))
      ∧ syncPendingOperations (fun _ => false) (queueOfflineOperation op (some pending)) =
          some (pending ++ [op])
      ∧ syncPendingOperations (fun _ => true) (queueOfflineOperation op (some pending)) =
          none := by
  refine ⟨by rw [syncAttempts_eq], by rw [syncAttempts_eq], ?_, ?_, ?_, ?_, ?_⟩
  · rw [syncAttempts_eq]
    exact List.filter_sublist pending
  · intro o ho hmem
    rw [syncAttempts_eq] at hmem
    have := (List.mem_filter.mp hmem).2
    simp [ho] at this
  · rw [syncPendingOperations, syncAttempts_eq]
    by_cases h : (pending.filter fun o => !(attempt o)) = [] <;>
      simp [h, List.length_pos, h]
  · simp [queueOfflineOperation, syncPendingOperations, syncAttempts_eq, List.filter]
  · simp [queueOfflineOperation, syncPendingOperations, syncAttempts_eq, List.filter]

/-- Witness for C4: a succeeding operation is not retained. -/
theorem sync_fifo_retention_witness :
    (fun _ : PendingSyncOperation => true) sampleOp = true ∧
      sampleOp ∉ (syncAttempts (fun _ => true) [sampleOp]).2 :=
  ⟨rfl, (sync_fifo_retention (fun _ => true) [sampleOp] sampleOp).2.2.2.1 sampleOp rfl⟩

end CroweLM
